import Mathlib

/-!
Shallow embedding of the portfolio valuation dashboard
(proyecto_streamlit): the arithmetic of dashboard_general.py,
pages/dashboard_usa.py, pages/dashboard_hk.py and
pages/dashboard_detail.py, with Python floats modelled as rationals,
fallible lookups modelled with Option/Except, and a Python division
that can hit a zero divisor modelled as an Option (none marks an
evaluation with a zero divisor, which the real code would turn into an
exception or a non-finite float).
-/

namespace Dashboard

/-- A Python division `a / b`: `none` when the divisor is zero (the
real code raises or produces a non-finite value there), otherwise the
exact quotient. -/
def pyDiv (a b : ℚ) : Option ℚ :=
  if b = 0 then none else some (a / b)

/-- One per-ticker output row of the guarded pages:
invested value, current value, performance percentage. -/
structure Row where
  invested : ℚ
  current : ℚ
  performance : ℚ
deriving DecidableEq

/-- One per-ticker output row of the unguarded HK / detail
computations: the performance division may hit a zero divisor. -/
structure RowU where
  invested : ℚ
  current : ℚ
  performance : Option ℚ
deriving DecidableEq

/-! ## pages/dashboard_usa.py, main -/

/-- Embeds `current_prices_usa[ticker].iloc[0] if ticker in current_prices_usa
else 0` (dashboard_usa.py line 136): a ticker absent from the downloaded
data gets current price 0. -/
def usaCurrentPrice (prices : String → Option ℚ) (t : String) : ℚ :=
  match prices t with
  | some p => p
  | none => 0

/-- Per-ticker row of the USA page loop (dashboard_usa.py lines
133-149): invested = shares × purchase price, current = shares ×
current price, performance guarded by `if invested_value > 0`. -/
def usaRow (shares pp : String → ℚ) (prices : String → Option ℚ)
    (t : String) : Row :=
  let current_price := usaCurrentPrice prices t
  let invested_value := shares t * pp t
  let current_value := shares t * current_price
  { invested := invested_value
    current := current_value
    performance :=
      if invested_value > 0 then (current_value / invested_value - 1) * 100
      else 0 }

/-- Embeds `df['Invested Value (USD)'].sum()` (dashboard_usa.py line 154). -/
def usaTotalInvested (shares pp : String → ℚ) (prices : String → Option ℚ)
    (ts : List String) : ℚ :=
  (ts.map fun t => (usaRow shares pp prices t).invested).sum

/-- Embeds `df['Current Value (USD)'].sum()` (dashboard_usa.py line 155). -/
def usaTotalCurrent (shares pp : String → ℚ) (prices : String → Option ℚ)
    (ts : List String) : ℚ :=
  (ts.map fun t => (usaRow shares pp prices t).current).sum

/-- Embeds `total_performance = ((total_current / total_invested) - 1) * 100 if
total_invested > 0 else 0` (dashboard_usa.py line 156). -/
def usaTotalPerformance (shares pp : String → ℚ)
    (prices : String → Option ℚ) (ts : List String) : ℚ :=
  if usaTotalInvested shares pp prices ts > 0 then
    (usaTotalCurrent shares pp prices ts /
      usaTotalInvested shares pp prices ts - 1) * 100
  else 0

/-- The arithmetic mean of the per-ticker performance percentages on the
USA page. This is NOT what the code computes; it is the alternative the
spec contrasts the aggregate ratio with. -/
def meanPerformance (shares pp : String → ℚ) (prices : String → Option ℚ)
    (ts : List String) : ℚ :=
  (ts.map fun t => (usaRow shares pp prices t).performance).sum / ts.length

/-! ## pages/dashboard_hk.py, main -/

/-- Per-ticker row of the HK page loop (dashboard_hk.py lines 120-136):
purchase and current prices are converted to USD by the FX rate before
the products; the performance division is NOT guarded. -/
def hkRow (shares pp cp : String → ℚ) (fx : ℚ) (t : String) : RowU :=
  let purchase_price_usd := pp t * fx
  let current_price_usd := cp t * fx
  let invested_value := shares t * purchase_price_usd
  let current_value := shares t * current_price_usd
  { invested := invested_value
    current := current_value
    performance := (pyDiv current_value invested_value).map fun r =>
      (r - 1) * 100 }

/-- Embeds `df['Invested Value (USD)'].sum()` (dashboard_hk.py line 141). -/
def hkPageTotalInvested (shares pp cp : String → ℚ) (fx : ℚ)
    (ts : List String) : ℚ :=
  (ts.map fun t => (hkRow shares pp cp fx t).invested).sum

/-- Embeds `df['Current Value (USD)'].sum()` (dashboard_hk.py line 142). -/
def hkPageTotalCurrent (shares pp cp : String → ℚ) (fx : ℚ)
    (ts : List String) : ℚ :=
  (ts.map fun t => (hkRow shares pp cp fx t).current).sum

/-- Embeds `total_performance = ((total_current / total_invested) - 1) * 100`
(dashboard_hk.py line 143): unguarded division. -/
def hkPageTotalPerformance (shares pp cp : String → ℚ) (fx : ℚ)
    (ts : List String) : Option ℚ :=
  (pyDiv (hkPageTotalCurrent shares pp cp fx ts)
    (hkPageTotalInvested shares pp cp fx ts)).map fun r => (r - 1) * 100

/-! ## pages/dashboard_detail.py, main -/

/-- One purchase lot from the `positions` table of
dashboard_detail.py. -/
structure Position where
  shares : ℚ
  price : ℚ
deriving DecidableEq

/-- Per-position row of the detail page (dashboard_detail.py lines
127-140): invested = shares × purchase price, current = shares ×
current price, performance division NOT guarded. -/
def detailPosRow (pos : Position) (current_price : ℚ) : RowU :=
  let invested_value_pos := pos.shares * pos.price
  let current_value_pos := pos.shares * current_price
  { invested := invested_value_pos
    current := current_value_pos
    performance := (pyDiv current_value_pos invested_value_pos).map fun r =>
      (r - 1) * 100 }

/-! ## Fetching the FX rate -/

/-- Outcome of `yf.download('HKD=X', period='1d')` as the two
`get_fx_rate` functions see it: a usable last Adj Close value (the
USD→HKD rate), a successful but empty result, a non-empty result
without an Adj Close column, or an exception. -/
inductive FxFetch where
  | rate (usdToHkd : ℚ)
  | empty
  | noAdjClose
  | failure
deriving DecidableEq

/-- Embeds `get_fx_rate` of dashboard_general.py (lines 77-85): returns
`1 / fx_data['Adj Close'].iloc[-1]` when data is non-empty and has the
column, `None` otherwise; any exception (including ZeroDivisionError on
a zero rate) yields `None`. -/
def general_get_fx_rate (f : FxFetch) : Option ℚ :=
  match f with
  | .rate r => if r = 0 then none else some (1 / r)
  | .empty => none
  | .noAdjClose => none
  | .failure => none

/-- Embeds `fx_rate_hkd_to_usd = get_fx_rate() or 0.128`
(dashboard_general.py line 129): Python `or` replaces both `None` and a
falsy 0.0 by the constant. -/
def general_fx_rate (f : FxFetch) : ℚ :=
  match general_get_fx_rate f with
  | none => 0.128
  | some r => if r = 0 then 0.128 else r

/-- Embeds `get_fx_rate` of pages/dashboard_hk.py (lines 20-26):
`fx_rate_usd_to_hkd = fx_data['Adj Close'].iloc[0] if not fx_data.empty
else 7.85; return 1 / fx_rate_usd_to_hkd`, with `except Exception:
return 0.128`. An empty result takes the non-exceptional 7.85 branch; a
missing column raises KeyError, caught by the except; a zero rate
raises ZeroDivisionError, also caught. -/
def hk_get_fx_rate (f : FxFetch) : ℚ :=
  match f with
  | .rate r => if r = 0 then 0.128 else 1 / r
  | .empty => 1 / 7.85
  | .noAdjClose => 0.128
  | .failure => 0.128

/-! ## dashboard_general.py, calculate_portfolio_metrics -/

/-- What `current_prices[ticker]` followed by the `.iloc[-1]` access
yields for one ticker inside calculate_portfolio_metrics: a price, an
IndexError/AttributeError/KeyError (caught by the inner `except`,
triggering the purchase-price fallback and a warning), or any other
exception (escaping to the function's outer `except`). -/
inductive PriceFetch where
  | price (p : ℚ)
  | missing
  | unexpected
deriving DecidableEq

/-- One HK iteration of the current-value loop (dashboard_general.py
lines 140-150): on a caught error the purchase price stands in for the
current price; both branches multiply by the FX rate. -/
def hkCurrentTerm (shares pp : String → ℚ) (prices : String → PriceFetch)
    (fx : ℚ) (t : String) : Except Unit ℚ :=
  match prices t with
  | .price p => .ok (shares t * p * fx)
  | .missing => .ok (shares t * pp t * fx)
  | .unexpected => .error ()

/-- One USA iteration of the current-value loop (dashboard_general.py
lines 159-169). -/
def usaCurrentTerm (shares pp : String → ℚ) (prices : String → PriceFetch)
    (t : String) : Except Unit ℚ :=
  match prices t with
  | .price p => .ok (shares t * p)
  | .missing => .ok (shares t * pp t)
  | .unexpected => .error ()

/-- Left-to-right accumulation of a loop body over the portfolio list;
an uncaught exception in any iteration aborts the whole sum. -/
def sumExcept (f : String → Except Unit ℚ) : List String → Except Unit ℚ
  | [] => .ok 0
  | t :: ts =>
    match f t with
    | .error e => .error e
    | .ok v =>
      match sumExcept f ts with
      | .error e => .error e
      | .ok rest => .ok (v + rest)

/-- Embeds `total_invested_value_hk_usd` (dashboard_general.py lines
134-137): each term is shares × purchase price × FX rate. -/
def hkInvestedTotal (shares pp : String → ℚ) (fx : ℚ)
    (ts : List String) : ℚ :=
  (ts.map fun t => shares t * pp t * fx).sum

/-- Embeds `total_invested_value_usa` (dashboard_general.py lines 153-156). -/
def usaInvestedTotal (shares pp : String → ℚ) (ts : List String) : ℚ :=
  (ts.map fun t => shares t * pp t).sum

/-- The value one ticker contributes to the HK current-value total when
no uncaught exception occurs (price, or purchase-price fallback). -/
def hkCurrentValue (shares pp : String → ℚ) (prices : String → PriceFetch)
    (fx : ℚ) (t : String) : ℚ :=
  match prices t with
  | .price p => shares t * p * fx
  | .missing => shares t * pp t * fx
  | .unexpected => 0

/-- The value one ticker contributes to the USA current-value total
when no uncaught exception occurs. -/
def usaCurrentValue (shares pp : String → ℚ) (prices : String → PriceFetch)
    (t : String) : ℚ :=
  match prices t with
  | .price p => shares t * p
  | .missing => shares t * pp t
  | .unexpected => 0

/-- The result dictionary of calculate_portfolio_metrics
(dashboard_general.py lines 180-187). -/
structure Metrics where
  total_invested : ℚ
  total_current_hk : ℚ
  total_current_usa : ℚ
  total_current : ℚ
  performance_hk : ℚ
  performance_usa : ℚ
deriving DecidableEq

/-- The all-zero dictionary returned from the outer `except` branch
(dashboard_general.py lines 191-198). -/
def zeroMetrics : Metrics :=
  { total_invested := 0
    total_current_hk := 0
    total_current_usa := 0
    total_current := 0
    performance_hk := 0
    performance_usa := 0 }

/-- The static inputs of calculate_portfolio_metrics: the two portfolio
lists with their share counts and purchase prices, and the per-ticker
outcome of the price download. -/
structure GeneralInput where
  portfolio_hk : List String
  portfolio_usa : List String
  shares_hk : String → ℚ
  pp_hk : String → ℚ
  shares_usa : String → ℚ
  pp_usa : String → ℚ
  prices_hk : String → PriceFetch
  prices_usa : String → PriceFetch

/-- The body of the `try` in calculate_portfolio_metrics
(dashboard_general.py lines 132-187): invested totals, the two
current-value loops, and the two zero-guarded performance figures. -/
def metricsBody (i : GeneralInput) (fx : ℚ) : Except Unit Metrics :=
  let total_invested_hk := hkInvestedTotal i.shares_hk i.pp_hk fx i.portfolio_hk
  match sumExcept (hkCurrentTerm i.shares_hk i.pp_hk i.prices_hk fx)
      i.portfolio_hk with
  | .error e => .error e
  | .ok total_current_hk =>
    let total_invested_usa := usaInvestedTotal i.shares_usa i.pp_usa i.portfolio_usa
    match sumExcept (usaCurrentTerm i.shares_usa i.pp_usa i.prices_usa)
        i.portfolio_usa with
    | .error e => .error e
    | .ok total_current_usa =>
      .ok
        { total_invested := total_invested_hk + total_invested_usa
          total_current_hk := total_current_hk
          total_current_usa := total_current_usa
          total_current := total_current_hk + total_current_usa
          performance_hk :=
            if total_invested_hk = 0 then 0
            else (total_current_hk / total_invested_hk - 1) * 100
          performance_usa :=
            if total_invested_usa = 0 then 0
            else (total_current_usa / total_invested_usa - 1) * 100 }

/-- calculate_portfolio_metrics with its outer `try`/`except`
(dashboard_general.py lines 131-198): an uncaught exception is replaced
by the all-zero dictionary; the Bool records whether the `st.error`
message was shown. -/
def calculate_portfolio_metrics (i : GeneralInput) (fx : ℚ) :
    Metrics × Bool :=
  match metricsBody i fx with
  | .ok m => (m, false)
  | .error _ => (zeroMetrics, true)

/-- The tickers for which the loops issue the `st.warning` about using
the purchase price instead of the current price. -/
def warnedTickers (i : GeneralInput) : List String :=
  i.portfolio_hk.filter (fun t => i.prices_hk t = .missing) ++
    i.portfolio_usa.filter (fun t => i.prices_usa t = .missing)

/-- The "Total Return" metric of the overview page
(dashboard_general.py line 230): `(total_current / total_invested - 1)
* 100` straight from the metrics dictionary, with no zero guard. -/
def totalReturnMetric (m : Metrics) : Option ℚ :=
  (pyDiv m.total_current m.total_invested).map fun r => (r - 1) * 100

/-! ## Helper lemmas -/

theorem sumExcept_error_of_mem (f : String → Except Unit ℚ)
    {ts : List String} {t : String} (ht : t ∈ ts)
    (hf : f t = .error ()) : sumExcept f ts = .error () := by
  induction ts with
  | nil => cases ht
  | cons u us ih =>
    rcases List.mem_cons.mp ht with h | h
    · subst h
      simp [sumExcept, hf]
    · cases hu : f u with
      | error e => cases e; simp [sumExcept, hu]
      | ok v => simp [sumExcept, hu, ih h]

theorem sumExcept_eq_sum (f : String → Except Unit ℚ) (g : String → ℚ)
    {ts : List String} (h : ∀ t ∈ ts, f t = .ok (g t)) :
    sumExcept f ts = .ok ((ts.map g).sum) := by
  induction ts with
  | nil => simp [sumExcept]
  | cons u us ih =>
    have hu : f u = .ok (g u) := h u (List.mem_cons_self u us)
    have hus : sumExcept f us = .ok ((us.map g).sum) :=
      ih fun t ht => h t (List.mem_cons_of_mem u ht)
    simp [sumExcept, hu, hus]

theorem hkCurrentTerm_ok (shares pp : String → ℚ)
    (prices : String → PriceFetch) (fx : ℚ) (t : String)
    (h : prices t ≠ .unexpected) :
    hkCurrentTerm shares pp prices fx t =
      .ok (hkCurrentValue shares pp prices fx t) := by
  cases hp : prices t with
  | price p => simp [hkCurrentTerm, hkCurrentValue, hp]
  | missing => simp [hkCurrentTerm, hkCurrentValue, hp]
  | unexpected => exact absurd hp h

theorem usaCurrentTerm_ok (shares pp : String → ℚ)
    (prices : String → PriceFetch) (t : String)
    (h : prices t ≠ .unexpected) :
    usaCurrentTerm shares pp prices t =
      .ok (usaCurrentValue shares pp prices t) := by
  cases hp : prices t with
  | price p => simp [usaCurrentTerm, usaCurrentValue, hp]
  | missing => simp [usaCurrentTerm, usaCurrentValue, hp]
  | unexpected => exact absurd hp h

theorem hkInvestedTotal_fx (shares pp : String → ℚ) (fx : ℚ)
    (ts : List String) :
    hkInvestedTotal shares pp fx ts =
      fx * hkInvestedTotal shares pp 1 ts := by
  induction ts with
  | nil => simp [hkInvestedTotal]
  | cons u us ih =>
    simp only [hkInvestedTotal, List.map_cons, List.sum_cons] at *
    rw [ih]
    ring

theorem hkCurrentFold_fx (shares pp : String → ℚ)
    (prices : String → PriceFetch) (fx : ℚ) (ts : List String) :
    sumExcept (hkCurrentTerm shares pp prices fx) ts =
      Except.map (fun v => fx * v)
        (sumExcept (hkCurrentTerm shares pp prices 1) ts) := by
  induction ts with
  | nil =>
    simp [sumExcept, Except.map]
  | cons u us ih =>
    cases hp : prices u with
    | price p =>
      cases hrec : sumExcept (hkCurrentTerm shares pp prices 1) us with
      | error e =>
        rw [hrec] at ih
        simp only [sumExcept, hkCurrentTerm, hp, ih, hrec, Except.map]
      | ok rest =>
        rw [hrec] at ih
        simp only [sumExcept, hkCurrentTerm, hp, ih, hrec, Except.map,
          Except.ok.injEq]
        ring
    | missing =>
      cases hrec : sumExcept (hkCurrentTerm shares pp prices 1) us with
      | error e =>
        rw [hrec] at ih
        simp only [sumExcept, hkCurrentTerm, hp, ih, hrec, Except.map]
      | ok rest =>
        rw [hrec] at ih
        simp only [sumExcept, hkCurrentTerm, hp, ih, hrec, Except.map,
          Except.ok.injEq]
        ring
    | unexpected =>
      simp only [sumExcept, hkCurrentTerm, hp, Except.map]

theorem hkPageTotalInvested_fx (shares pp cp : String → ℚ) (fx : ℚ)
    (ts : List String) :
    hkPageTotalInvested shares pp cp fx ts =
      fx * hkPageTotalInvested shares pp cp 1 ts := by
  induction ts with
  | nil => simp [hkPageTotalInvested]
  | cons u us ih =>
    simp only [hkPageTotalInvested, List.map_cons, List.sum_cons] at *
    rw [ih]
    simp only [hkRow]
    ring

theorem hkPageTotalCurrent_fx (shares pp cp : String → ℚ) (fx : ℚ)
    (ts : List String) :
    hkPageTotalCurrent shares pp cp fx ts =
      fx * hkPageTotalCurrent shares pp cp 1 ts := by
  induction ts with
  | nil => simp [hkPageTotalCurrent]
  | cons u us ih =>
    simp only [hkPageTotalCurrent, List.map_cons, List.sum_cons] at *
    rw [ih]
    simp only [hkRow]
    ring

theorem pyDiv_mul_left (a b c : ℚ) (hc : c ≠ 0) :
    pyDiv (c * a) (c * b) = pyDiv a b := by
  unfold pyDiv
  rcases eq_or_ne b 0 with hb | hb
  · simp [hb]
  · rw [if_neg (by exact mul_ne_zero hc hb), if_neg hb,
      mul_div_mul_left a b hc]

theorem metricsBody_ok (i : GeneralInput) (fx c cu : ℚ)
    (h1 : sumExcept (hkCurrentTerm i.shares_hk i.pp_hk i.prices_hk fx)
      i.portfolio_hk = .ok c)
    (h2 : sumExcept (usaCurrentTerm i.shares_usa i.pp_usa i.prices_usa)
      i.portfolio_usa = .ok cu) :
    metricsBody i fx = .ok
      { total_invested := hkInvestedTotal i.shares_hk i.pp_hk fx i.portfolio_hk
          + usaInvestedTotal i.shares_usa i.pp_usa i.portfolio_usa
        total_current_hk := c
        total_current_usa := cu
        total_current := c + cu
        performance_hk :=
          if hkInvestedTotal i.shares_hk i.pp_hk fx i.portfolio_hk = 0 then 0
          else (c / hkInvestedTotal i.shares_hk i.pp_hk fx i.portfolio_hk - 1)
            * 100
        performance_usa :=
          if usaInvestedTotal i.shares_usa i.pp_usa i.portfolio_usa = 0 then 0
          else (cu / usaInvestedTotal i.shares_usa i.pp_usa i.portfolio_usa - 1)
            * 100 } := by
  unfold metricsBody
  rw [h1, h2]

theorem metricsBody_error_hk (i : GeneralInput) (fx : ℚ)
    (h1 : sumExcept (hkCurrentTerm i.shares_hk i.pp_hk i.prices_hk fx)
      i.portfolio_hk = .error ()) :
    metricsBody i fx = .error () := by
  unfold metricsBody
  rw [h1]

theorem metricsBody_error_usa (i : GeneralInput) (fx c : ℚ)
    (h1 : sumExcept (hkCurrentTerm i.shares_hk i.pp_hk i.prices_hk fx)
      i.portfolio_hk = .ok c)
    (h2 : sumExcept (usaCurrentTerm i.shares_usa i.pp_usa i.prices_usa)
      i.portfolio_usa = .error ()) :
    metricsBody i fx = .error () := by
  unfold metricsBody
  rw [h1, h2]

theorem calc_performance_hk_one (i : GeneralInput) (fx : ℚ) (hfx : fx ≠ 0) :
    (calculate_portfolio_metrics i fx).1.performance_hk =
      (calculate_portfolio_metrics i 1).1.performance_hk := by
  cases h1 : sumExcept (hkCurrentTerm i.shares_hk i.pp_hk i.prices_hk 1)
      i.portfolio_hk with
  | error e =>
    cases e
    have hfxfold : sumExcept (hkCurrentTerm i.shares_hk i.pp_hk i.prices_hk fx)
        i.portfolio_hk = .error () := by
      rw [hkCurrentFold_fx, h1]
      rfl
    unfold calculate_portfolio_metrics
    rw [metricsBody_error_hk i fx hfxfold, metricsBody_error_hk i 1 h1]
  | ok c =>
    have hfxfold : sumExcept (hkCurrentTerm i.shares_hk i.pp_hk i.prices_hk fx)
        i.portfolio_hk = .ok (fx * c) := by
      rw [hkCurrentFold_fx, h1]
      rfl
    cases h2 : sumExcept (usaCurrentTerm i.shares_usa i.pp_usa i.prices_usa)
        i.portfolio_usa with
    | error e =>
      cases e
      unfold calculate_portfolio_metrics
      rw [metricsBody_error_usa i fx (fx * c) hfxfold h2,
        metricsBody_error_usa i 1 c h1 h2]
    | ok cu =>
      unfold calculate_portfolio_metrics
      rw [metricsBody_ok i fx (fx * c) cu hfxfold h2,
        metricsBody_ok i 1 c cu h1 h2]
      dsimp only
      rw [hkInvestedTotal_fx i.shares_hk i.pp_hk fx i.portfolio_hk]
      rcases eq_or_ne (hkInvestedTotal i.shares_hk i.pp_hk 1 i.portfolio_hk) 0
        with h0 | h0
      · rw [h0, mul_zero]
        simp
      · rw [if_neg (mul_ne_zero hfx h0), if_neg h0,
          mul_div_mul_left c _ hfx]

theorem hkPagePerf_one (shares pp cp : String → ℚ) (fx : ℚ) (hfx : fx ≠ 0)
    (ts : List String) :
    hkPageTotalPerformance shares pp cp fx ts =
      hkPageTotalPerformance shares pp cp 1 ts := by
  unfold hkPageTotalPerformance
  rw [hkPageTotalInvested_fx, hkPageTotalCurrent_fx, pyDiv_mul_left _ _ fx hfx]

/-! ## Concrete example inputs used by witnesses -/

/-- Example share-count map: one share of everything. -/
def exShares : String → ℚ := fun _ => 1

/-- Example purchase-price map. -/
def exPp : String → ℚ := fun t => if t = "A" then 1 else 3

/-- Example current-price lookup on the USA page (every ticker
present). -/
def exPrices : String → Option ℚ := fun t => if t = "A" then some 2 else some 3

/-- Example current-price map on the HK page. -/
def exCp : String → ℚ := fun _ => 2

/-- Example aggregator input in which every holding has zero shares, so
every invested value is zero. -/
def zeroSharesInput : GeneralInput :=
  { portfolio_hk := ["1211.HK"]
    portfolio_usa := ["BABA"]
    shares_hk := fun _ => 0
    pp_hk := fun _ => 226
    shares_usa := fun _ => 0
    pp_usa := fun _ => 82
    prices_hk := fun _ => .price 240
    prices_usa := fun _ => .price 80 }

/-- Example aggregator input whose only USA ticker has no usable
current price (the caught-error branch). -/
def missingPriceInput : GeneralInput :=
  { portfolio_hk := []
    portfolio_usa := ["BABA"]
    shares_hk := fun _ => 0
    pp_hk := fun _ => 0
    shares_usa := fun _ => 2
    pp_usa := fun _ => 100
    prices_hk := fun _ => .missing
    prices_usa := fun _ => .missing }

/-- Example aggregator input whose USA price lookup raises an uncaught
exception. -/
def unexpectedInput : GeneralInput :=
  { portfolio_hk := ["1211.HK"]
    portfolio_usa := ["BABA"]
    shares_hk := fun _ => 6
    pp_hk := fun _ => 226
    shares_usa := fun _ => 3
    pp_usa := fun _ => 81
    prices_hk := fun _ => .price 240
    prices_usa := fun _ => .unexpected }

/-- Example aggregator input where every lookup succeeds or takes the
caught fallback branch. -/
def okInput : GeneralInput :=
  { portfolio_hk := ["1211.HK", "0700.HK"]
    portfolio_usa := ["BABA"]
    shares_hk := fun t => if t = "1211.HK" then 7 else 1
    pp_hk := fun t => if t = "1211.HK" then 226 else 400
    shares_usa := fun _ => 4
    pp_usa := fun _ => 80
    prices_hk := fun t => if t = "1211.HK" then .price 250 else .missing
    prices_usa := fun _ => .price 90 }

/-! ## Claims -/

/-- C1, counterexample: the claim says every per-ticker performance
division on every page is guarded, with invested = 0 reported as 0. On
the HK page (dashboard_hk.py line 126) the division is unguarded: a
holding with zero invested value (shares 1, purchase price 0, current
price 5, FX rate 1) makes the page evaluate
`((current_value / invested_value) - 1) * 100` with a zero divisor
(modelled as none), so the reported performance is not 0. -/
theorem C1_counterexample :
    (hkRow (fun _ => 1) (fun _ => 0) (fun _ => 5) 1 "0700.HK").invested = 0
    ∧ (hkRow (fun _ => 1) (fun _ => 0) (fun _ => 5) 1 "0700.HK").performance
      ≠ some 0
    ∧ (hkRow (fun _ => 1) (fun _ => 0) (fun _ => 5) 1 "0700.HK").performance
      = none := by
  have h : (hkRow (fun _ => 1) (fun _ => 0) (fun _ => 5) 1
      "0700.HK").performance = none := by
    norm_num [hkRow, pyDiv]
  refine ⟨by norm_num [hkRow], ?_, h⟩
  rw [h]
  exact fun hc => Option.noConfusion hc

/-- C1, amended: the division-by-zero guard holds where it exists — on
the USA page (per-ticker, dashboard_usa.py line 139, and aggregate,
line 156) and in calculate_portfolio_metrics (dashboard_general.py
lines 172-178) — where invested value 0 yields performance 0; the HK
page computes its performance divisions unguarded. -/
theorem C1_guarded (shares pp : String → ℚ) (prices : String → Option ℚ)
    (ts : List String) (t : String) (i : GeneralInput) (fx : ℚ)
    (h1 : (usaRow shares pp prices t).invested = 0)
    (h2 : usaTotalInvested shares pp prices ts = 0)
    (h3 : hkInvestedTotal i.shares_hk i.pp_hk fx i.portfolio_hk = 0)
    (h4 : usaInvestedTotal i.shares_usa i.pp_usa i.portfolio_usa = 0) :
    (usaRow shares pp prices t).performance = 0
    ∧ usaTotalPerformance shares pp prices ts = 0
    ∧ (calculate_portfolio_metrics i fx).1.performance_hk = 0
    ∧ (calculate_portfolio_metrics i fx).1.performance_usa = 0 := by
  refine ⟨?_, ?_, ?_, ?_⟩
  · simp only [usaRow] at h1 ⊢
    rw [h1]
    norm_num
  · simp [usaTotalPerformance, h2]
  · cases hh : sumExcept (hkCurrentTerm i.shares_hk i.pp_hk i.prices_hk fx)
        i.portfolio_hk with
    | error e =>
      cases e
      unfold calculate_portfolio_metrics
      rw [metricsBody_error_hk i fx hh]
      rfl
    | ok c =>
      cases hu : sumExcept (usaCurrentTerm i.shares_usa i.pp_usa i.prices_usa)
          i.portfolio_usa with
      | error e =>
        cases e
        unfold calculate_portfolio_metrics
        rw [metricsBody_error_usa i fx c hh hu]
        rfl
      | ok cu =>
        unfold calculate_portfolio_metrics
        rw [metricsBody_ok i fx c cu hh hu]
        dsimp only
        rw [if_pos h3]
  · cases hh : sumExcept (hkCurrentTerm i.shares_hk i.pp_hk i.prices_hk fx)
        i.portfolio_hk with
    | error e =>
      cases e
      unfold calculate_portfolio_metrics
      rw [metricsBody_error_hk i fx hh]
      rfl
    | ok c =>
      cases hu : sumExcept (usaCurrentTerm i.shares_usa i.pp_usa i.prices_usa)
          i.portfolio_usa with
      | error e =>
        cases e
        unfold calculate_portfolio_metrics
        rw [metricsBody_error_usa i fx c hh hu]
        rfl
      | ok cu =>
        unfold calculate_portfolio_metrics
        rw [metricsBody_ok i fx c cu hh hu]
        dsimp only
        rw [if_pos h4]

/-- C1, witness: the amended guard theorem applied at a concrete
zero-invested configuration. -/
theorem C1_guarded_witness :
    (usaRow (fun _ => 0) (fun _ => 100) (fun _ => some 50) "BABA").invested = 0
    ∧ usaTotalInvested (fun _ => 0) (fun _ => 100) (fun _ => some 50)
        ["BABA"] = 0
    ∧ hkInvestedTotal zeroSharesInput.shares_hk zeroSharesInput.pp_hk 0.128
        zeroSharesInput.portfolio_hk = 0
    ∧ usaInvestedTotal zeroSharesInput.shares_usa zeroSharesInput.pp_usa
        zeroSharesInput.portfolio_usa = 0
    ∧ ((usaRow (fun _ => 0) (fun _ => 100) (fun _ => some 50) "BABA").performance
        = 0
      ∧ usaTotalPerformance (fun _ => 0) (fun _ => 100) (fun _ => some 50)
          ["BABA"] = 0
      ∧ (calculate_portfolio_metrics zeroSharesInput 0.128).1.performance_hk = 0
      ∧ (calculate_portfolio_metrics zeroSharesInput 0.128).1.performance_usa
        = 0) :=
  ⟨by norm_num [usaRow, usaCurrentPrice],
    by norm_num [usaTotalInvested, usaRow, usaCurrentPrice],
    by norm_num [hkInvestedTotal, zeroSharesInput],
    by norm_num [usaInvestedTotal, zeroSharesInput],
    C1_guarded (fun _ => 0) (fun _ => 100) (fun _ => some 50) ["BABA"] "BABA"
      zeroSharesInput 0.128 (by norm_num [usaRow, usaCurrentPrice])
      (by norm_num [usaTotalInvested, usaRow, usaCurrentPrice])
      (by norm_num [hkInvestedTotal, zeroSharesInput])
      (by norm_num [usaInvestedTotal, zeroSharesInput])⟩

/-- C2, counterexample: the claim says a ticker with no available
current price gets the purchase price substituted, contributing 0%
performance. On the USA page (dashboard_usa.py line 136) a ticker
absent from the downloaded data gets current price 0 instead: with
shares 1 and purchase price 100 the row is invested 100, current 0,
performance −100% — not 0%, and current ≠ invested. -/
theorem C2_counterexample :
    usaRow (fun _ => 1) (fun _ => 100) (fun _ => none) "BABA" =
      { invested := 100, current := 0, performance := -100 }
    ∧ (usaRow (fun _ => 1) (fun _ => 100) (fun _ => none) "BABA").performance
      ≠ 0
    ∧ (usaRow (fun _ => 1) (fun _ => 100) (fun _ => none) "BABA").current
      ≠ (usaRow (fun _ => 1) (fun _ => 100) (fun _ => none) "BABA").invested := by
  refine ⟨by norm_num [usaRow, usaCurrentPrice],
    by norm_num [usaRow, usaCurrentPrice], by norm_num [usaRow, usaCurrentPrice]⟩

/-- C2, amended: in calculate_portfolio_metrics (dashboard_general.py
lines 158-169) a ticker whose price lookup raises a caught error gets
the purchase price substituted — its current-value term equals its
invested-value term, so it contributes 0% — a warning is recorded for
it, and as long as no lookup raises an uncaught exception the whole
computation still succeeds; the USA page instead substitutes 0. -/
theorem C2_missing_price_fallback (i : GeneralInput) (fx : ℚ) (t : String)
    (ht : t ∈ i.portfolio_usa) (hm : i.prices_usa t = .missing)
    (hhk : ∀ u ∈ i.portfolio_hk, i.prices_hk u ≠ .unexpected)
    (husa : ∀ u ∈ i.portfolio_usa, i.prices_usa u ≠ .unexpected) :
    usaCurrentTerm i.shares_usa i.pp_usa i.prices_usa t =
      .ok (i.shares_usa t * i.pp_usa t)
    ∧ t ∈ warnedTickers i
    ∧ (∃ m, metricsBody i fx = .ok m)
    ∧ (calculate_portfolio_metrics i fx).2 = false := by
  have h1 : sumExcept (hkCurrentTerm i.shares_hk i.pp_hk i.prices_hk fx)
      i.portfolio_hk = .ok ((i.portfolio_hk.map
        (hkCurrentValue i.shares_hk i.pp_hk i.prices_hk fx)).sum) :=
    sumExcept_eq_sum _ _ fun u hu =>
      hkCurrentTerm_ok i.shares_hk i.pp_hk i.prices_hk fx u (hhk u hu)
  have h2 : sumExcept (usaCurrentTerm i.shares_usa i.pp_usa i.prices_usa)
      i.portfolio_usa = .ok ((i.portfolio_usa.map
        (usaCurrentValue i.shares_usa i.pp_usa i.prices_usa)).sum) :=
    sumExcept_eq_sum _ _ fun u hu =>
      usaCurrentTerm_ok i.shares_usa i.pp_usa i.prices_usa u (husa u hu)
  refine ⟨?_, ?_, ?_, ?_⟩
  · simp [usaCurrentTerm, hm]
  · unfold warnedTickers
    refine List.mem_append.mpr (Or.inr ?_)
    exact List.mem_filter.mpr ⟨ht, by simp [hm]⟩
  · exact ⟨_, metricsBody_ok i fx _ _ h1 h2⟩
  · unfold calculate_portfolio_metrics
    rw [metricsBody_ok i fx _ _ h1 h2]

/-- C2, witness: the amended fallback theorem applied to a concrete
input whose USA ticker has no usable price. -/
theorem C2_missing_price_fallback_witness :
    "BABA" ∈ missingPriceInput.portfolio_usa
    ∧ missingPriceInput.prices_usa "BABA" = PriceFetch.missing
    ∧ (∀ u ∈ missingPriceInput.portfolio_hk,
        missingPriceInput.prices_hk u ≠ PriceFetch.unexpected)
    ∧ (∀ u ∈ missingPriceInput.portfolio_usa,
        missingPriceInput.prices_usa u ≠ PriceFetch.unexpected)
    ∧ (usaCurrentTerm missingPriceInput.shares_usa missingPriceInput.pp_usa
        missingPriceInput.prices_usa "BABA" =
          .ok (missingPriceInput.shares_usa "BABA" *
            missingPriceInput.pp_usa "BABA")
      ∧ "BABA" ∈ warnedTickers missingPriceInput
      ∧ (∃ m, metricsBody missingPriceInput 1 = .ok m)
      ∧ (calculate_portfolio_metrics missingPriceInput 1).2 = false) :=
  ⟨by decide, by decide, by decide, by decide,
    C2_missing_price_fallback missingPriceInput 1 "BABA" (by decide)
      (by decide) (by decide) (by decide)⟩

/-- C3: on the USA page the aggregate performance equals
(total current / total invested − 1) × 100 computed from the aggregate
ratio (dashboard_usa.py line 156), likewise on the HK page
(dashboard_hk.py line 143) whenever the aggregate invested value is
nonzero; and the aggregate figure differs in general from the
arithmetic mean of the per-ticker percentages, as the concrete
two-ticker example shows (25% versus a 50% mean). -/
theorem C3_aggregate_ratio (shares pp : String → ℚ)
    (prices : String → Option ℚ) (ts : List String)
    (hpos : usaTotalInvested shares pp prices ts > 0)
    (shp ppp cpp : String → ℚ) (fx : ℚ) (ts2 : List String)
    (hpos2 : hkPageTotalInvested shp ppp cpp fx ts2 ≠ 0) :
    usaTotalPerformance shares pp prices ts =
      (usaTotalCurrent shares pp prices ts /
        usaTotalInvested shares pp prices ts - 1) * 100
    ∧ hkPageTotalPerformance shp ppp cpp fx ts2 =
      some ((hkPageTotalCurrent shp ppp cpp fx ts2 /
        hkPageTotalInvested shp ppp cpp fx ts2 - 1) * 100)
    ∧ usaTotalPerformance exShares exPp exPrices ["A", "B"] ≠
      meanPerformance exShares exPp exPrices ["A", "B"] := by
  refine ⟨?_, ?_, ?_⟩
  · unfold usaTotalPerformance
    rw [if_pos hpos]
  · simp [hkPageTotalPerformance, pyDiv, hpos2]
  · simp +decide only [usaTotalPerformance, usaTotalCurrent, usaTotalInvested,
      meanPerformance, usaRow, usaCurrentPrice, exShares, exPp, exPrices,
      List.map_cons, List.map_nil, List.sum_cons, List.sum_nil,
      List.length_cons, List.length_nil]
    norm_num

/-- C3, witness: the aggregate-ratio theorem applied at the concrete
two-ticker example. -/
theorem C3_aggregate_ratio_witness :
    usaTotalInvested exShares exPp exPrices ["A", "B"] > 0
    ∧ hkPageTotalInvested exShares exPp exCp 1 ["A", "B"] ≠ 0
    ∧ (usaTotalPerformance exShares exPp exPrices ["A", "B"] =
        (usaTotalCurrent exShares exPp exPrices ["A", "B"] /
          usaTotalInvested exShares exPp exPrices ["A", "B"] - 1) * 100
      ∧ hkPageTotalPerformance exShares exPp exCp 1 ["A", "B"] =
        some ((hkPageTotalCurrent exShares exPp exCp 1 ["A", "B"] /
          hkPageTotalInvested exShares exPp exCp 1 ["A", "B"] - 1) * 100)
      ∧ usaTotalPerformance exShares exPp exPrices ["A", "B"] ≠
        meanPerformance exShares exPp exPrices ["A", "B"]) :=
  ⟨by
    simp +decide only [usaTotalInvested, usaRow, usaCurrentPrice, exShares,
      exPp, exPrices, List.map_cons, List.map_nil, List.sum_cons, List.sum_nil]
    norm_num,
  by
    simp +decide only [hkPageTotalInvested, hkRow, exShares, exPp, exCp,
      List.map_cons, List.map_nil, List.sum_cons, List.sum_nil]
    norm_num,
  C3_aggregate_ratio exShares exPp exPrices ["A", "B"]
    (by
      simp +decide only [usaTotalInvested, usaRow, usaCurrentPrice, exShares,
        exPp, exPrices, List.map_cons, List.map_nil, List.sum_cons,
        List.sum_nil]
      norm_num)
    exShares exPp exCp 1 ["A", "B"]
    (by
      simp +decide only [hkPageTotalInvested, hkRow, exShares, exPp, exCp,
        List.map_cons, List.map_nil, List.sum_cons, List.sum_nil]
      norm_num)⟩

/-- C4: the aggregate invested value is the sum over tickers of the
per-ticker invested values and the aggregate current value is the sum
of the per-ticker current values, both in calculate_portfolio_metrics
(whenever no lookup raises an uncaught exception) and on the USA
page. -/
theorem C4_totals_are_sums (i : GeneralInput) (fx : ℚ)
    (hhk : ∀ u ∈ i.portfolio_hk, i.prices_hk u ≠ .unexpected)
    (husa : ∀ u ∈ i.portfolio_usa, i.prices_usa u ≠ .unexpected)
    (shares pp : String → ℚ) (prices : String → Option ℚ)
    (ts : List String) :
    (calculate_portfolio_metrics i fx).1.total_invested =
      (i.portfolio_hk.map fun t => i.shares_hk t * i.pp_hk t * fx).sum
      + (i.portfolio_usa.map fun t => i.shares_usa t * i.pp_usa t).sum
    ∧ (calculate_portfolio_metrics i fx).1.total_current =
      (i.portfolio_hk.map
        (hkCurrentValue i.shares_hk i.pp_hk i.prices_hk fx)).sum
      + (i.portfolio_usa.map
        (usaCurrentValue i.shares_usa i.pp_usa i.prices_usa)).sum
    ∧ usaTotalInvested shares pp prices ts =
      (ts.map fun t => (usaRow shares pp prices t).invested).sum
    ∧ usaTotalCurrent shares pp prices ts =
      (ts.map fun t => (usaRow shares pp prices t).current).sum := by
  have h1 : sumExcept (hkCurrentTerm i.shares_hk i.pp_hk i.prices_hk fx)
      i.portfolio_hk = .ok ((i.portfolio_hk.map
        (hkCurrentValue i.shares_hk i.pp_hk i.prices_hk fx)).sum) :=
    sumExcept_eq_sum _ _ fun u hu =>
      hkCurrentTerm_ok i.shares_hk i.pp_hk i.prices_hk fx u (hhk u hu)
  have h2 : sumExcept (usaCurrentTerm i.shares_usa i.pp_usa i.prices_usa)
      i.portfolio_usa = .ok ((i.portfolio_usa.map
        (usaCurrentValue i.shares_usa i.pp_usa i.prices_usa)).sum) :=
    sumExcept_eq_sum _ _ fun u hu =>
      usaCurrentTerm_ok i.shares_usa i.pp_usa i.prices_usa u (husa u hu)
  unfold calculate_portfolio_metrics
  rw [metricsBody_ok i fx _ _ h1 h2]
  exact ⟨rfl, rfl, rfl, rfl⟩

/-- C4, witness: the totals-are-sums theorem applied at a concrete
input with one fallback ticker and one priced ticker. -/
theorem C4_totals_are_sums_witness :
    (∀ u ∈ okInput.portfolio_hk, okInput.prices_hk u ≠ PriceFetch.unexpected)
    ∧ (∀ u ∈ okInput.portfolio_usa,
        okInput.prices_usa u ≠ PriceFetch.unexpected)
    ∧ ((calculate_portfolio_metrics okInput 1).1.total_invested =
        (okInput.portfolio_hk.map fun t =>
          okInput.shares_hk t * okInput.pp_hk t * 1).sum
        + (okInput.portfolio_usa.map fun t =>
          okInput.shares_usa t * okInput.pp_usa t).sum
      ∧ (calculate_portfolio_metrics okInput 1).1.total_current =
        (okInput.portfolio_hk.map
          (hkCurrentValue okInput.shares_hk okInput.pp_hk okInput.prices_hk
            1)).sum
        + (okInput.portfolio_usa.map
          (usaCurrentValue okInput.shares_usa okInput.pp_usa
            okInput.prices_usa)).sum
      ∧ usaTotalInvested exShares exPp exPrices ["A", "B"] =
        (["A", "B"].map fun t => (usaRow exShares exPp exPrices t).invested).sum
      ∧ usaTotalCurrent exShares exPp exPrices ["A", "B"] =
        (["A", "B"].map fun t =>
          (usaRow exShares exPp exPrices t).current).sum) :=
  ⟨by decide, by decide,
    C4_totals_are_sums okInput 1 (by decide) (by decide)
      exShares exPp exPrices ["A", "B"]⟩

/-- C5, counterexample: the claim says any unavailable FX rate falls
back to the constant 0.128. In get_fx_rate of pages/dashboard_hk.py a
fetch that succeeds but returns an empty result takes the
non-exceptional branch and yields 1 / 7.85 = 20/157, which is not
0.128. -/
theorem C5_counterexample :
    hk_get_fx_rate .empty ≠ 0.128 ∧ hk_get_fx_rate .empty = 20 / 157 := by
  refine ⟨by norm_num [hk_get_fx_rate], by norm_num [hk_get_fx_rate]⟩

/-- C5, amended: the overview page (dashboard_general.py) uses the
fallback constant 0.128 for every unavailable-FX outcome (exception,
empty result, or missing column), and the HK page uses 0.128 on an
exception or missing column; but an empty result on the HK page uses
1 / 7.85 instead. -/
theorem C5_fx_fallbacks :
    general_fx_rate .failure = 0.128
    ∧ general_fx_rate .empty = 0.128
    ∧ general_fx_rate .noAdjClose = 0.128
    ∧ hk_get_fx_rate .failure = 0.128
    ∧ hk_get_fx_rate .noAdjClose = 0.128
    ∧ hk_get_fx_rate .empty = 1 / 7.85 := by
  refine ⟨by norm_num [general_fx_rate, general_get_fx_rate],
    by norm_num [general_fx_rate, general_get_fx_rate],
    by norm_num [general_fx_rate, general_get_fx_rate],
    by norm_num [hk_get_fx_rate], by norm_num [hk_get_fx_rate],
    by norm_num [hk_get_fx_rate]⟩

/-- C6: for a holding with positive invested value, invested value =
shares × purchase price, current value = shares × current price, and
performance = (current / invested − 1) × 100, both on the USA page and
per position on the detail page; the concrete example shares 2,
purchase 100, current 150 gives invested 200, current 300, performance
50. -/
theorem C6_holding_arithmetic (s p c cp : ℚ) (h : 0 < s * p) :
    (usaRow (fun _ => s) (fun _ => p) (fun _ => some c) "T").invested = s * p
    ∧ (usaRow (fun _ => s) (fun _ => p) (fun _ => some c) "T").current = s * c
    ∧ (usaRow (fun _ => s) (fun _ => p) (fun _ => some c) "T").performance =
      (s * c / (s * p) - 1) * 100
    ∧ (detailPosRow ⟨s, p⟩ cp).invested = s * p
    ∧ (detailPosRow ⟨s, p⟩ cp).current = s * cp
    ∧ (detailPosRow ⟨s, p⟩ cp).performance =
      some ((s * cp / (s * p) - 1) * 100)
    ∧ usaRow (fun _ => 2) (fun _ => 100) (fun _ => some 150) "T" =
      { invested := 200, current := 300, performance := 50 } := by
  refine ⟨rfl, rfl, ?_, rfl, rfl, ?_, ?_⟩
  · simp only [usaRow, usaCurrentPrice]
    rw [if_pos h]
  · simp [detailPosRow, pyDiv, h.ne']
  · norm_num [usaRow, usaCurrentPrice]

/-- C6, witness: the per-holding arithmetic theorem applied at the
spec's concrete example shares 2, purchase price 100, current price
150. -/
theorem C6_holding_arithmetic_witness :
    (0:ℚ) < 2 * 100
    ∧ ((usaRow (fun _ => (2:ℚ)) (fun _ => 100) (fun _ => some 150)
          "T").invested = 2 * 100
      ∧ (usaRow (fun _ => (2:ℚ)) (fun _ => 100) (fun _ => some 150)
          "T").current = 2 * 150
      ∧ (usaRow (fun _ => (2:ℚ)) (fun _ => 100) (fun _ => some 150)
          "T").performance = (2 * 150 / (2 * 100) - 1) * 100
      ∧ (detailPosRow ⟨2, 100⟩ 150).invested = 2 * 100
      ∧ (detailPosRow ⟨2, 100⟩ 150).current = 2 * 150
      ∧ (detailPosRow ⟨2, 100⟩ 150).performance =
        some ((2 * 150 / (2 * 100) - 1) * 100)
      ∧ usaRow (fun _ => 2) (fun _ => 100) (fun _ => some 150) "T" =
        { invested := 200, current := 300, performance := 50 }) :=
  ⟨by norm_num, C6_holding_arithmetic 2 100 150 150 (by norm_num)⟩

/-- C7: if any price lookup raises an exception the inner handlers do
not catch, calculate_portfolio_metrics catches it at the top level and
returns the all-zero metrics dictionary with the user-visible error
flag set, instead of propagating the exception. -/
theorem C7_exception_all_zero (i : GeneralInput) (fx : ℚ)
    (h : (∃ t ∈ i.portfolio_hk, i.prices_hk t = .unexpected)
      ∨ ∃ t ∈ i.portfolio_usa, i.prices_usa t = .unexpected) :
    calculate_portfolio_metrics i fx =
      ({ total_invested := 0, total_current_hk := 0, total_current_usa := 0,
         total_current := 0, performance_hk := 0, performance_usa := 0 },
        true) := by
  have hbody : metricsBody i fx = .error () := by
    rcases h with ⟨t, ht, hp⟩ | ⟨t, ht, hp⟩
    · exact metricsBody_error_hk i fx
        (sumExcept_error_of_mem _ ht (by simp [hkCurrentTerm, hp]))
    · cases h1 : sumExcept (hkCurrentTerm i.shares_hk i.pp_hk i.prices_hk fx)
          i.portfolio_hk with
      | error e =>
        cases e
        exact metricsBody_error_hk i fx h1
      | ok c =>
        exact metricsBody_error_usa i fx c h1
          (sumExcept_error_of_mem _ ht (by simp [usaCurrentTerm, hp]))
  unfold calculate_portfolio_metrics
  rw [hbody]
  rfl

/-- C7, witness: the top-level catch theorem applied at a concrete
input whose USA lookup raises an uncaught exception. -/
theorem C7_exception_all_zero_witness :
    ((∃ t ∈ unexpectedInput.portfolio_hk,
        unexpectedInput.prices_hk t = PriceFetch.unexpected)
      ∨ ∃ t ∈ unexpectedInput.portfolio_usa,
        unexpectedInput.prices_usa t = PriceFetch.unexpected)
    ∧ calculate_portfolio_metrics unexpectedInput 1 =
      ({ total_invested := 0, total_current_hk := 0, total_current_usa := 0,
         total_current := 0, performance_hk := 0, performance_usa := 0 },
        true) :=
  ⟨by decide, C7_exception_all_zero unexpectedInput 1 (by decide)⟩

/-- C8: in the HK computations both the purchase price and the current
price are multiplied by the FX rate before any aggregation — each
loop-body term carries the factor fx (in both the priced and the
fallback branch), the invested total and the whole current-value fold
are fx-linear, and the HK page rows convert both prices to USD. -/
theorem C8_fx_before_aggregation (shares pp cp : String → ℚ) (p fx : ℚ)
    (prices : String → PriceFetch) (ts : List String) (t : String) :
    hkCurrentTerm shares pp (fun _ => .price p) fx t = .ok (shares t * p * fx)
    ∧ hkCurrentTerm shares pp (fun _ => .missing) fx t =
      .ok (shares t * pp t * fx)
    ∧ hkInvestedTotal shares pp fx ts = fx * hkInvestedTotal shares pp 1 ts
    ∧ sumExcept (hkCurrentTerm shares pp prices fx) ts =
      Except.map (fun v => fx * v)
        (sumExcept (hkCurrentTerm shares pp prices 1) ts)
    ∧ (hkRow shares pp cp fx t).invested = fx * (shares t * pp t)
    ∧ (hkRow shares pp cp fx t).current = fx * (shares t * cp t) := by
  refine ⟨rfl, rfl, hkInvestedTotal_fx shares pp fx ts,
    hkCurrentFold_fx shares pp prices fx ts, ?_, ?_⟩
  · simp only [hkRow]
    ring
  · simp only [hkRow]
    ring

/-- C9: the HK performance percentage does not depend on the FX rate:
for any two positive rates and the same share counts, purchase prices
and price-lookup outcomes, calculate_portfolio_metrics reports the same
performance_hk, and the HK page reports the same total performance,
because the rate scales invested and current value alike (also in the
purchase-price fallback branch) and cancels in the ratio. -/
theorem C9_fx_independent (i : GeneralInput) (shares pp cp : String → ℚ)
    (ts : List String) (fx1 fx2 : ℚ) (h1 : 0 < fx1) (h2 : 0 < fx2) :
    (calculate_portfolio_metrics i fx1).1.performance_hk =
      (calculate_portfolio_metrics i fx2).1.performance_hk
    ∧ hkPageTotalPerformance shares pp cp fx1 ts =
      hkPageTotalPerformance shares pp cp fx2 ts := by
  constructor
  · rw [calc_performance_hk_one i fx1 h1.ne',
      calc_performance_hk_one i fx2 h2.ne']
  · rw [hkPagePerf_one shares pp cp fx1 h1.ne' ts,
      hkPagePerf_one shares pp cp fx2 h2.ne' ts]

/-- C9, witness: FX independence applied at two concrete positive rates
1/5 and 1/4. -/
theorem C9_fx_independent_witness :
    (0:ℚ) < 1 / 5 ∧ (0:ℚ) < 1 / 4
    ∧ ((calculate_portfolio_metrics okInput (1 / 5)).1.performance_hk =
        (calculate_portfolio_metrics okInput (1 / 4)).1.performance_hk
      ∧ hkPageTotalPerformance exShares exPp exCp (1 / 5) ["A", "B"] =
        hkPageTotalPerformance exShares exPp exCp (1 / 4) ["A", "B"]) :=
  ⟨by norm_num, by norm_num,
    C9_fx_independent okInput exShares exPp exCp ["A", "B"] (1 / 5) (1 / 4)
      (by norm_num) (by norm_num)⟩

/-- C10: the overview page's Total Return is
(total_current / total_invested − 1) × 100 straight from the metrics
dictionary with no zero guard, so it is defined exactly when
total_invested ≠ 0; the all-zero fallback dictionary has
total_invested = 0, so on it the division hits a zero divisor. -/
theorem C10_total_return_unguarded (m : Metrics)
    (h : m.total_invested ≠ 0) :
    totalReturnMetric m =
      some ((m.total_current / m.total_invested - 1) * 100)
    ∧ totalReturnMetric zeroMetrics = none
    ∧ zeroMetrics.total_invested = 0 := by
  refine ⟨by simp [totalReturnMetric, pyDiv, h], ?_, rfl⟩
  simp [totalReturnMetric, pyDiv, zeroMetrics]

/-- C10, witness: the Total Return theorem applied at a concrete
metrics dictionary with nonzero total invested value. -/
theorem C10_total_return_unguarded_witness :
    ({ total_invested := 200, total_current_hk := 0, total_current_usa := 0,
       total_current := 300, performance_hk := 0, performance_usa := 0 } :
        Metrics).total_invested ≠ 0
    ∧ (totalReturnMetric
        { total_invested := 200, total_current_hk := 0, total_current_usa := 0,
          total_current := 300, performance_hk := 0, performance_usa := 0 } =
        some ((300 / 200 - 1) * 100)
      ∧ totalReturnMetric zeroMetrics = none
      ∧ zeroMetrics.total_invested = 0) :=
  ⟨by norm_num,
    C10_total_return_unguarded
      { total_invested := 200, total_current_hk := 0, total_current_usa := 0,
        total_current := 300, performance_hk := 0, performance_usa := 0 }
      (by norm_num)⟩

end Dashboard
